import Mathlib

/-!
Verification development for the `pyvogon` database-driver shim
(`src/vogon/base.py`).  The Python module drives one remote SQL job:
it validates its configuration, submits the query, polls a progress
endpoint in a sleep/poll/decrement loop until a terminal status or a
timeout, fetches paginated results on success, and otherwise emits a
best-effort diagnostic and raises or returns `None`.

The embedding below mirrors `base.py` function by function.  Network
endpoints are abstracted into a `Server` oracle recording what each
HTTP call would return; every observable request made by the client is
recorded in an `Event` trace so that claims about "how many calls" and
"in what order" become statements about that trace.  Python exceptions
are modelled as an explicit error type threaded through `Except`.
-/

/-- Python runtime values the driver manipulates: strings, ints, floats
(modelled as rationals, which is enough since the code never computes
with them), booleans, `None`, lists/tuples, and JSON objects (dicts). -/
inductive Value where
  | str (s : String)
  | num (n : Int)
  | real (q : Rat)
  | bool (b : Bool)
  | null
  | list (elems : List Value)
  | dict (fields : List (String × Value))

/-- Python exception values raised by `base.py`, tagged by the exception
class actually used in the source: plain `ValueError` (used for the
configuration checks, HTTP status failures, submission failure and the
job-failed error), `requests.exceptions.ConnectionError`,
`vogon.exceptions.Error` (used by `check_closed`, `check_result` and
`get_type`), `vogon.exceptions.NotSupportedError`, `KeyError` from
dictionary lookups, and `TypeError` from `str.join` / `tuple()`. -/
inductive PyErr where
  | valueError (msg : String)
  | connectionError (msg : String)
  | vogonError (msg : String)
  | notSupportedError (msg : String)
  | keyError (key : String)
  | typeError (msg : String)
deriving DecidableEq

/-- Name of the Python exception class of an exception value; used to
state which errors are distinguishable by class (as opposed to merely
by message). -/
def PyErr.klass : PyErr → String
  | .valueError _ => "ValueError"
  | .connectionError _ => "requests.exceptions.ConnectionError"
  | .vogonError _ => "vogon.exceptions.Error"
  | .notSupportedError _ => "vogon.exceptions.NotSupportedError"
  | .keyError _ => "KeyError"
  | .typeError _ => "TypeError"

mutual
/-- Python `repr` of a value (as used when a value is interpolated
inside a container's `str`).  String escaping inside `repr` is
approximated by plain quoting; no claim depends on it. -/
def pyRepr : Value → String
  | .str s => "'" ++ s ++ "'"
  | .num n => toString n
  | .real q => toString q
  | .bool b => if b then "True" else "False"
  | .null => "None"
  | .list es => "[" ++ String.intercalate ", " (pyReprList es) ++ "]"
  | .dict fs => "\x7b" ++ String.intercalate ", " (pyReprFields fs) ++ "\x7d"

/-- Helper of `pyRepr` for list elements. -/
def pyReprList : List Value → List String
  | [] => []
  | v :: vs => pyRepr v :: pyReprList vs

/-- Helper of `pyRepr` for dict fields. -/
def pyReprFields : List (String × Value) → List String
  | [] => []
  | (k, v) :: fs => ("'" ++ k ++ "': " ++ pyRepr v) :: pyReprFields fs
end

/-- Python `str` of a value: like `repr` except that a top-level string
is returned unquoted.  This is what `%`-formatting (`%(key)s`) applies
to each substituted value. -/
def pyStr : Value → String
  | .str s => s
  | v => pyRepr v

/-- Python `str.replace` for a single-character pattern, the only form
the source uses (`"'"` in `escape`, `'"'` in `replace_quotes`): every
occurrence of the pattern character is replaced by the replacement
string.  Defined character by character so that it evaluates inside
the kernel. -/
def strReplace (pattern : Char) (replacement : String) : List Char → List Char
  | [] => []
  | c :: rest =>
      if c = pattern then replacement.toList ++ strReplace pattern replacement rest
      else c :: strReplace pattern replacement rest

/-- The apostrophe character, written by code point to keep the source
free of quote-escaping noise. -/
def squote : Char := Char.ofNat 39

/-- The double-quote character, written by code point. -/
def dquote : Char := Char.ofNat 34

mutual
/-- Embedding of `escape` (base.py:462-477).  The source checks, in
order: the literal `"*"` passes through; strings are single-quoted with
embedded single quotes replaced by two backticks; booleans become
`TRUE`/`FALSE`; ints and floats pass through unescaped; lists and
tuples are escaped element-wise and joined with `", "` (where Python's
`str.join` raises `TypeError` if an element escaped to a non-string);
any other value (`None`, dicts, ...) falls off the end of the function
and Python returns `None`. -/
def escape : Value → Except PyErr Value
  | .str s =>
      if s = "*" then .ok (.str "*")
      else .ok (.str ("'" ++ String.mk (strReplace squote "``" s.toList) ++ "'"))
  | .bool b => .ok (.str (if b then "TRUE" else "FALSE"))
  | .num n => .ok (.num n)
  | .real q => .ok (.real q)
  | .list es =>
      match escapeJoin es with
      | .ok parts => .ok (.str (String.intercalate ", " parts))
      | .error e => .error e
  | .null => .ok .null
  | .dict _ => .ok .null

/-- Embedding of the generator `", ".join(escape(element) for element in
value)` inside `escape`: escapes each element and demands a string,
as Python's `str.join` does. -/
def escapeJoin : List Value → Except PyErr (List String)
  | [] => .ok []
  | v :: vs =>
      match escape v with
      | .ok (.str s) =>
          match escapeJoin vs with
          | .ok parts => .ok (s :: parts)
          | .error e => .error e
      | .ok other =>
          .error (.typeError ("sequence item: expected str instance, " ++ pyRepr other ++ " found"))
      | .error e => .error e
end

/-- Scanner state for Python `%`-style string formatting with a mapping
argument (`operation % escaped_parameters` in `apply_parameters`). -/
inductive ScanMode where
  | plain
  | afterPct
  | inKey (acc : List Char)
  | afterKey (key : List Char)

/-- Character-by-character model of Python `%`-formatting restricted to
the forms the driver can produce: `%(key)s` substitutes `str(value)`
for the mapped value, `%%` is a literal percent, a missing key raises
`KeyError`, and any other conversion raises `ValueError` as CPython
does. -/
def pctScan (params : List (String × Value)) : ScanMode → List Char → Except PyErr (List Char)
  | .plain, [] => .ok []
  | .plain, '%' :: rest => pctScan params .afterPct rest
  | .plain, c :: rest =>
      match pctScan params .plain rest with
      | .ok t => .ok (c :: t)
      | .error e => .error e
  | .afterPct, [] => .error (.valueError "incomplete format")
  | .afterPct, '%' :: rest =>
      match pctScan params .plain rest with
      | .ok t => .ok ('%' :: t)
      | .error e => .error e
  | .afterPct, '(' :: rest => pctScan params (.inKey []) rest
  | .afterPct, _ :: _ => .error (.valueError "unsupported format character")
  | .inKey _, [] => .error (.valueError "incomplete format key")
  | .inKey acc, ')' :: rest => pctScan params (.afterKey acc) rest
  | .inKey acc, c :: rest => pctScan params (.inKey (acc ++ [c])) rest
  | .afterKey key, 's' :: rest =>
      match params.lookup (String.mk key) with
      | some v =>
          match pctScan params .plain rest with
          | .ok t => .ok ((pyStr v).toList ++ t)
          | .error e => .error e
      | none => .error (.keyError (String.mk key))
  | .afterKey _, _ :: _ => .error (.valueError "unsupported format character")
  | .afterKey _, [] => .error (.valueError "incomplete format")

/-- Embedding of `apply_parameters` (base.py:406-411): `None` or an
empty dict leaves the operation untouched (`if not parameters`);
otherwise each parameter value is escaped and the `%(key)s`
placeholders in the operation are substituted. -/
def apply_parameters (operation : String) (parameters : Option (List (String × Value))) : Except PyErr String :=
  match parameters with
  | none => .ok operation
  | some [] => .ok operation
  | some ps =>
      match ps.mapM (fun kv => (escape kv.2).map (fun e => (kv.1, e))) with
      | .ok escaped =>
          match pctScan escaped .plain operation.toList with
          | .ok cs => .ok (String.mk cs)
          | .error e => .error e
      | .error e => .error e

/-- Embedding of `replace_quotes` (base.py:414-416): every double quote
in the query text becomes a backtick. -/
def replace_quotes (query : String) : String :=
  String.mk (strReplace dquote "`" query.toList)

/-- Type codes of the Python `Type` class (base.py:15-18). -/
def PyType.STRING : Nat := 1

/-- Type code `Type.NUMBER` (base.py:17). -/
def PyType.NUMBER : Nat := 2

/-- Type code `Type.BOOLEAN` (base.py:18). -/
def PyType.BOOLEAN : Nat := 3

/-- Embedding of `get_type` (base.py:105-119): strings and `None` are
STRING, booleans BOOLEAN (checked before int because Python's `bool`
is a subclass of `int`), ints and floats NUMBER; anything else raises
`vogon.exceptions.Error`. -/
def get_type : Value → Except PyErr Nat
  | .str _ => .ok PyType.STRING
  | .null => .ok PyType.STRING
  | .bool _ => .ok PyType.BOOLEAN
  | .num _ => .ok PyType.NUMBER
  | .real _ => .ok PyType.NUMBER
  | v => .error (.vogonError ("Value of unknown type: " ++ pyStr v))

/-- One entry of a cursor description, mirroring the 7-tuples built by
`get_description_from_row`: name, type code, four always-`None` sizing
fields, and the `null_ok` flag. -/
structure DescEntry where
  name : String
  type_code : Nat
  display_size : Option Nat
  internal_size : Option Nat
  precision : Option Nat
  scale : Option Nat
  null_ok : Bool
deriving DecidableEq

/-- Embedding of `get_description_from_row` (base.py:83-102): for each
`(name, value)` item of the row mapping, emit name, the inferred type
code, four `None`s, and `null_ok` true exactly for STRING-typed
values. -/
def get_description_from_row (row : List (String × Value)) : Except PyErr (List DescEntry) :=
  row.mapM (fun nv =>
    match get_type nv.2 with
    | .ok tc => .ok ⟨nv.1, tc, none, none, none, none, tc = PyType.STRING⟩
    | .error e => .error e)

/-- Outcome of sending one HTTP request, as seen by `__run_and_check`
(base.py:355-362): either a transport-level connection failure, or a
response with a status code, a reason phrase, and a body (`none` when
the body is not valid JSON, making `response.json()` raise). -/
inductive HttpResult where
  | conn_error (msg : String)
  | resp (code : Nat) (reason : String) (body : Option (List (String × Value)))

/-- Embedding of `__run_and_check` plus `__check_response_status`
(base.py:355-369): a `requests` `ConnectionError` is re-raised as is;
an HTTP error status (4xx/5xx, i.e. `raise_for_status` fires) becomes
`ValueError(str(status_code) + ":" + reason)`; otherwise the response
is returned. -/
def run_and_check : HttpResult → Except PyErr (Nat × String × Option (List (String × Value)))
  | .conn_error m => .error (.connectionError m)
  | .resp code reason body =>
      if 400 ≤ code then .error (.valueError (toString code ++ ":" ++ reason))
      else .ok (code, reason, body)

/-- Embedding of `__get_response_value` (base.py:339-344): decoding a
non-JSON body raises `ValueError`; a JSON object body is indexed by the
key, raising `KeyError` when absent. -/
def get_response_value (body : Option (List (String × Value))) (key : String) : Except PyErr Value :=
  match body with
  | none => .error (.valueError "No JSON object could be decoded")
  | some fields =>
      match fields.lookup key with
      | some v => .ok v
      | none => .error (.keyError key)

/-- Embedding of `submit` (base.py:372-379): POST the query, check the
transport and HTTP status, read the body's `status` field; when it
equals `"SUBMITTED"` return the body's `id` field, otherwise raise
`ValueError` with a fixed message that does not mention the response. -/
def submit (h : HttpResult) : Except PyErr Value :=
  match run_and_check h with
  | .error e => .error e
  | .ok (_, _, body) =>
      match get_response_value body "status" with
      | .error e => .error e
      | .ok v =>
          match v with
          | .str s =>
              if s = "SUBMITTED" then get_response_value body "id"
              else .error (.valueError "query is not submitted successfully, check with Vogon Admin")
          | _ => .error (.valueError "query is not submitted successfully, check with Vogon Admin")

/-- Oracle describing what the remote service would answer on each
call.  `submitHttp` is the raw HTTP outcome of the submission POST;
`polls k` is the outcome of the `k`-th call to `progress` (an error
models any exception raised during that poll, carrying its message);
`cancelResult` is the outcome of `cancel`; `resultsBody` is the decoded
JSON body returned by `results` (or the exception it raises);
`errMsg` is the outcome of `error_message`.  The job id does not
influence the oracle: each `execute_sync` call owns exactly one job. -/
structure Server where
  submitHttp : HttpResult
  polls : Nat → Except String String
  cancelResult : Except PyErr Unit
  resultsBody : Except PyErr (List (String × Value))
  errMsg : Except PyErr Value

/-- Observable actions of one `execute_sync` run, in order: the
submission POST, each `time.sleep(poll_interval_sec)`, each call to
`progress`, each evaluation of the timeout guard (`timeout < 0 and
...`), the single `cancel` request of the timeout branch, the `results`
fetch, and the diagnostic `error_message` fetch. -/
inductive Event where
  | submitCall
  | sleepCall (sec : Int)
  | pollCall
  | budgetCheck
  | cancelCall
  | resultsCall
  | errorMsgCall
deriving DecidableEq

/-- How the poll loop of `execute_sync` ended: with a status (either a
terminal status read from the service, or the forced `"TIMEOUT"`), or
by an exception propagating out of the `cancel` call, or — an artifact
of the bounded model only — by running out of recursion fuel.  The fuel
given by `execute_sync` is proven sufficient, so `fuelOut` is
unreachable from it. -/
inductive LoopExit where
  | done (status : String)
  | raisedE (e : PyErr)
  | fuelOut
deriving DecidableEq

/-- Result of the poll loop: the events it emitted, how it exited, and
the final value of the countdown variable `timeout`. -/
structure LoopOut where
  events : List Event
  exitS : LoopExit
  timeoutLeft : Int

/-- The loop guard `current_status in ['RUNNING', 'QUEUED', 'UNKNOWN',
'SUBMITTED']` (base.py:434). -/
def isNonTerminal (s : String) : Bool :=
  s = "RUNNING" || s = "QUEUED" || s = "UNKNOWN" || s = "SUBMITTED"

/-- Status update of one poll tick (base.py:436-439): the `try` body
replaces the status with the value returned by `progress`, and the
`except` arm prints the exception and keeps the previous status. -/
def pollStatus (polls : Nat → Except String String) (tick : Nat) (status : String) : String :=
  match polls tick with
  | .ok s => s
  | .error _ => status

/-- Embedding of the `while` loop of `execute_sync` (base.py:434-448).
Each iteration sleeps one poll interval, calls `progress` (an exception
is printed and otherwise ignored, keeping the previous status),
decrements the countdown by the poll interval, and evaluates the
timeout guard: when the countdown is negative and the status is still
non-terminal the client calls `cancel`, forces the status to
`"TIMEOUT"` and breaks (with `cancel` exceptions propagating).  The
status print on alternating ticks is output-only and not modelled.
Recursion is bounded by `fuel`, supplied by `execute_sync` in an amount
proven sufficient below.  The loop reads only the progress oracle and
the cancel outcome, which it takes as explicit arguments. -/
def pollLoop (polls : Nat → Except String String) (cancelR : Except PyErr Unit)
    (p : Int) : Nat → Int → String → Nat → LoopOut
  | 0, timeout, status, _ =>
      if isNonTerminal status then ⟨[], .fuelOut, timeout⟩
      else ⟨[], .done status, timeout⟩
  | fuel + 1, timeout, status, tick =>
      if isNonTerminal status then
        let status' := pollStatus polls tick status
        let timeout' := timeout - p
        let evs := [Event.sleepCall p, Event.pollCall, Event.budgetCheck]
        if timeout' < 0 && isNonTerminal status' then
          match cancelR with
          | .ok _ => ⟨evs ++ [Event.cancelCall], .done "TIMEOUT", timeout'⟩
          | .error e => ⟨evs ++ [Event.cancelCall], .raisedE e, timeout'⟩
        else
          let rest := pollLoop polls cancelR p fuel timeout' status' (tick + 1)
          ⟨evs ++ rest.events, rest.exitS, rest.timeoutLeft⟩
      else ⟨[], .done status, timeout⟩

/-- Overall outcome of `execute_sync`: the decoded JSON body returned
by `results` on success, the `None` returned when the job failed and
`raise_error` is unset, a propagated exception, or the unreachable
fuel-exhaustion artifact of the bounded loop model. -/
inductive ExecOutcome where
  | body (b : List (String × Value))
  | nullResult
  | raisedE (e : PyErr)
  | fuelOut

/-- Full observable result of one `execute_sync` call: the event trace,
the outcome, the final value of `current_status` after the loop (when
the loop completed normally), and the final countdown value (when the
loop ran). -/
structure ExecOut where
  events : List Event
  result : ExecOutcome
  finalStatus : Option String
  finalTimeout : Option Int

/-- Embedding of `execute_sync` (base.py:419-459).  The two
configuration guards raise `ValueError` before any network call; then
the query is submitted (a submission failure propagating immediately);
then the poll loop runs starting from status `"SUBMITTED"` with the
countdown initialised to `query_timeout_min`; on final status
`"SUCCEEDED"` the `results` body is returned; otherwise the diagnostic
`error_message` fetch is attempted (its outcome only printed, its own
failure swallowed by the bare `except`), and the call either raises
`ValueError('vogon job failed to succeed')` or returns `None`
according to `raise_error`. -/
def execute_sync (srv : Server) (poll_interval_sec query_timeout_min : Int)
    (raise_error : Bool) : ExecOut :=
  if query_timeout_min < 2 then
    ⟨[], .raisedE (.valueError "query_timeout_min for vogon query cannot be less than 2 minutes"),
      none, none⟩
  else if poll_interval_sec < 45 then
    ⟨[], .raisedE (.valueError "poll_interval_sec for vogon query cannot be less than 45 seconds"),
      none, none⟩
  else
    match submit srv.submitHttp with
    | .error e => ⟨[.submitCall], .raisedE e, none, none⟩
    | .ok _ =>
        let lo := pollLoop srv.polls srv.cancelResult poll_interval_sec
          (query_timeout_min.toNat + 2) query_timeout_min "SUBMITTED" 0
        match lo.exitS with
        | .fuelOut => ⟨.submitCall :: lo.events, .fuelOut, none, some lo.timeoutLeft⟩
        | .raisedE e => ⟨.submitCall :: lo.events, .raisedE e, none, some lo.timeoutLeft⟩
        | .done s =>
            if s = "SUCCEEDED" then
              match srv.resultsBody with
              | .ok b =>
                  ⟨.submitCall :: lo.events ++ [.resultsCall], .body b, some s, some lo.timeoutLeft⟩
              | .error e =>
                  ⟨.submitCall :: lo.events ++ [.resultsCall], .raisedE e, some s, some lo.timeoutLeft⟩
            else
              let evs := .submitCall :: lo.events ++ [.errorMsgCall]
              if raise_error then
                ⟨evs, .raisedE (.valueError "vogon job failed to succeed"), some s, some lo.timeoutLeft⟩
              else
                ⟨evs, .nullResult, some s, some lo.timeoutLeft⟩

/-- Embedding of `tuple(row)` in `Cursor._stream_query`
(base.py:334-335): a JSON array row becomes a tuple of its cells;
`tuple()` of a non-iterable value raises `TypeError` (strings, also
iterable, become tuples of their characters). -/
def rowToTuple : Value → Except PyErr (List Value)
  | .list cells => .ok cells
  | .str s => .ok (s.toList.map (fun c => .str (String.mk [c])))
  | v => .error (.typeError ("argument of type " ++ pyStr v ++ " is not iterable"))

/-- Embedding of the data path of `Cursor._stream_query`
(base.py:319-336): run `execute_sync` with its default arguments
(`poll_interval_sec=60`, `query_timeout_min=1440`,
`total_result_rows=100`, `raise_error=True`), index the returned JSON
body by `"rows"` (a `KeyError` when absent), and turn each row into a
tuple.  Note the method resets `self.description` to `None` and never
assigns it again; the description reset is modelled in
`CursorState.execute` below.  The fuel-out artifact of the bounded loop
model is mapped to a distinguished error that is unreachable (the fuel
is proven sufficient below). -/
def stream_query (srv : Server) : Except PyErr (List (List Value)) :=
  match (execute_sync srv 60 1440 true).result with
  | .body b =>
      match b.lookup "rows" with
      | none => .error (.keyError "rows")
      | some (.list rows) => rows.mapM rowToTuple
      | some v => .error (.typeError (pyStr v ++ " object is not iterable"))
  | .nullResult => .error (.typeError "NoneType object is not subscriptable")
  | .raisedE e => .error e
  | .fuelOut => .error (.typeError "model artifact: loop fuel exhausted (unreachable)")

/-- State of a `Cursor` (base.py:201-236): the `closed` flag, the
`description` attribute (only ever written to `None` by
`_stream_query`), and `_results` (`none` before any `execute`, and the
remaining rows of the materialized iterator afterwards). -/
structure CursorState where
  closed : Bool
  description : Option (List DescEntry)
  results : Option (List (List Value))

/-- A fresh cursor as built by `Cursor.__init__`: open, no description,
no results. -/
def CursorState.fresh : CursorState := ⟨false, none, none⟩

/-- The error raised by the `check_closed` decorator (base.py:58-68):
`vogon.exceptions.Error("{klass} already closed")`. -/
def closedError (klass : String) : PyErr :=
  .vogonError (klass ++ " already closed")

/-- The error raised by the `check_result` decorator (base.py:71-80). -/
def notExecutedError : PyErr :=
  .vogonError ("Called before " ++ "`execute`")

/-- Embedding of `Cursor.execute` (base.py:252-258) guarded by
`check_closed`: apply the parameters, normalize quotes, stream the
query, and store the row iterator.  `_stream_query` resets
`description` to `None` before submitting. -/
def CursorState.execute (c : CursorState) (srv : Server) (operation : String)
    (parameters : Option (List (String × Value))) : Except PyErr CursorState :=
  if c.closed then .error (closedError "Cursor")
  else
    match apply_parameters operation parameters with
    | .error e => .error e
    | .ok q =>
        let _query := replace_quotes q
        match stream_query srv with
        | .ok rows => .ok { c with description := none, results := some rows }
        | .error e => .error e

/-- Embedding of `Cursor.close` (base.py:247-250) guarded by
`check_closed`. -/
def CursorState.close (c : CursorState) : Except PyErr CursorState :=
  if c.closed then .error (closedError "Cursor")
  else .ok { c with closed := true }

/-- Embedding of `Cursor.fetchone` (base.py:266-276).  The decorator
stack is `@check_result` over `@check_closed`, so the has-results check
runs before the closed check; `next` on the iterator returns the head
or `None` when exhausted. -/
def CursorState.fetchone (c : CursorState) : Except PyErr (Option (List Value) × CursorState) :=
  match c.results with
  | none => .error notExecutedError
  | some rs =>
      if c.closed then .error (closedError "Cursor")
      else
        match rs with
        | [] => .ok (none, { c with results := some [] })
        | r :: rest => .ok (some r, { c with results := some rest })

/-- Embedding of `Cursor.fetchall` (base.py:289-297), `@check_result`
over `@check_closed`: consumes and returns the remaining rows. -/
def CursorState.fetchall (c : CursorState) : Except PyErr (List (List Value) × CursorState) :=
  match c.results with
  | none => .error notExecutedError
  | some rs =>
      if c.closed then .error (closedError "Cursor")
      else .ok (rs, { c with results := some [] })

/-- Embedding of `Cursor.fetchmany` (base.py:278-287), `@check_result`
over `@check_closed`: returns the next `size` rows. -/
def CursorState.fetchmany (c : CursorState) (size : Nat) : Except PyErr (List (List Value) × CursorState) :=
  match c.results with
  | none => .error notExecutedError
  | some rs =>
      if c.closed then .error (closedError "Cursor")
      else .ok (rs.take size, { c with results := some (rs.drop size) })

/-- Embedding of `Cursor.executemany` (base.py:260-264), guarded by
`check_closed`: always raises `NotSupportedError` when open. -/
def CursorState.executemany (c : CursorState) : Except PyErr Unit :=
  if c.closed then .error (closedError "Cursor")
  else .error (.notSupportedError "`executemany` is not supported, use `execute` instead")

/-- State of a `Connection` (base.py:122-149), reduced to the `closed`
flag that the `check_closed` guards consult. -/
structure ConnectionState where
  closed : Bool

/-- Embedding of `Connection.close` (base.py:151-159) guarded by
`check_closed` (closing the child cursors swallows their already-closed
errors). -/
def ConnectionState.close (c : ConnectionState) : Except PyErr ConnectionState :=
  if c.closed then .error (closedError "Connection")
  else .ok ⟨true⟩

/-- Embedding of `Connection.commit` (base.py:161-168) guarded by
`check_closed`: a no-op when open. -/
def ConnectionState.commit (c : ConnectionState) : Except PyErr Unit :=
  if c.closed then .error (closedError "Connection")
  else .ok ()

/-- Embedding of `Connection.cursor` (base.py:170-187) guarded by
`check_closed`: returns a fresh cursor. -/
def ConnectionState.cursor (c : ConnectionState) : Except PyErr CursorState :=
  if c.closed then .error (closedError "Connection")
  else .ok CursorState.fresh

/-- The three events every iteration of the poll loop emits, in order:
sleep one poll interval, call `progress`, evaluate the timeout guard. -/
def iterBlock (p : Int) : List Event :=
  [Event.sleepCall p, Event.pollCall, Event.budgetCheck]

/-- Event trace of `n` complete poll-loop iterations. -/
def iterBlocks (p : Int) : Nat → List Event
  | 0 => []
  | n + 1 => iterBlock p ++ iterBlocks p n

/-- The per-iteration blocks contain no cancel request. -/
theorem iterBlocks_count_cancel (p : Int) (n : Nat) :
    (iterBlocks p n).count Event.cancelCall = 0 := by
  induction n with
  | zero => rfl
  | succ n ih => simp [iterBlocks, iterBlock, List.count_append, ih, List.count_cons]

/-- One poll-loop iteration in which the decremented countdown is
negative while the (possibly updated) status is still non-terminal:
the loop emits its sleep/poll/check block and exactly one cancel
request, ends the countdown at `timeout - p`, and exits with status
`"TIMEOUT"` (or with the exception raised by `cancel`). -/
theorem pollLoop_cancel_step (polls : Nat → Except String String) (cancelR : Except PyErr Unit)
    (p : Int) (fuel : Nat) (timeout : Int) (status : String) (tick : Nat)
    (hst : isNonTerminal status = true)
    (hneg : timeout - p < 0) (hnt : isNonTerminal (pollStatus polls tick status) = true) :
    pollLoop polls cancelR p (fuel + 1) timeout status tick =
      ⟨iterBlock p ++ [Event.cancelCall],
        (match cancelR with
          | .ok _ => LoopExit.done "TIMEOUT"
          | .error e => LoopExit.raisedE e),
        timeout - p⟩ := by
  have h1 : (timeout - p < 0 && isNonTerminal (pollStatus polls tick status)) = true := by
    simp [hnt]; omega
  simp only [pollLoop, hst, h1, if_true]
  cases cancelR <;> rfl

/-- One poll-loop iteration that does not hit the timeout branch: the
loop emits its sleep/poll/check block and continues with the updated
status, the decremented countdown, and the next tick. -/
theorem pollLoop_cont_step (polls : Nat → Except String String) (cancelR : Except PyErr Unit)
    (p : Int) (fuel : Nat) (timeout : Int) (status : String) (tick : Nat)
    (hst : isNonTerminal status = true)
    (hg : ¬(timeout - p < 0 ∧ isNonTerminal (pollStatus polls tick status) = true)) :
    pollLoop polls cancelR p (fuel + 1) timeout status tick =
      ⟨iterBlock p ++ (pollLoop polls cancelR p fuel (timeout - p) (pollStatus polls tick status) (tick + 1)).events,
        (pollLoop polls cancelR p fuel (timeout - p) (pollStatus polls tick status) (tick + 1)).exitS,
        (pollLoop polls cancelR p fuel (timeout - p) (pollStatus polls tick status) (tick + 1)).timeoutLeft⟩ := by
  have h1 : (timeout - p < 0 && isNonTerminal (pollStatus polls tick status)) = false := by
    rcases Bool.eq_false_or_eq_true (isNonTerminal (pollStatus polls tick status)) with h | h
    · have hnx : ¬(timeout - p < 0) := fun hx => hg ⟨hx, h⟩
      simp [h, hnx]
    · simp [h]
  simp only [pollLoop, hst, h1, if_true, Bool.false_eq_true, if_false]
  rfl

/-- Entering the poll loop in a terminal state exits immediately with
no events and the countdown untouched, for any fuel. -/
theorem pollLoop_term (polls : Nat → Except String String) (cancelR : Except PyErr Unit)
    (p : Int) (fuel : Nat) (timeout : Int) (status : String) (tick : Nat)
    (hst : isNonTerminal status = false) :
    pollLoop polls cancelR p fuel timeout status tick = ⟨[], .done status, timeout⟩ := by
  cases fuel <;> simp only [pollLoop, hst, Bool.false_eq_true, if_false]

/-- Structure of every poll-loop run: the events are some number `n` of
complete sleep/poll/check iteration blocks followed by at most one
cancel request, the countdown ends at its initial value minus `n` poll
intervals (one decrement per iteration), and when the loop is entered
in a non-terminal state with fuel available at least one full iteration
runs.  Moreover the cancel tail can only accompany an exit whose status
is the forced `"TIMEOUT"` (or a propagated cancel exception). -/
theorem pollLoop_shape (polls : Nat → Except String String) (cancelR : Except PyErr Unit)
    (p : Int) (fuel : Nat) (timeout : Int) (status : String) (tick : Nat) :
    ∃ n ctail,
      (pollLoop polls cancelR p fuel timeout status tick).events = iterBlocks p n ++ ctail ∧
      (ctail = [] ∨ ctail = [Event.cancelCall]) ∧
      (pollLoop polls cancelR p fuel timeout status tick).timeoutLeft = timeout - n * p ∧
      (isNonTerminal status = true → 1 ≤ fuel → 1 ≤ n) ∧
      (∀ s, (pollLoop polls cancelR p fuel timeout status tick).exitS = LoopExit.done s →
        s ≠ "TIMEOUT" → ctail = []) := by
  induction fuel generalizing timeout status tick with
  | zero =>
      by_cases h : isNonTerminal status
      · exact ⟨0, [], by simp [pollLoop, h, iterBlocks], Or.inl rfl,
          by simp [pollLoop, h], fun _ hf => absurd hf (by omega), fun _ _ _ => rfl⟩
      · exact ⟨0, [], by simp [pollLoop, h, iterBlocks], Or.inl rfl,
          by simp [pollLoop, h], fun _ hf => absurd hf (by omega), fun _ _ _ => rfl⟩
  | succ fuel ih =>
      by_cases hst : isNonTerminal status
      · by_cases hg : timeout - p < 0 ∧ isNonTerminal (pollStatus polls tick status) = true
        · rw [pollLoop_cancel_step polls cancelR p fuel timeout status tick hst hg.1 hg.2]
          refine ⟨1, [Event.cancelCall], by simp [iterBlocks, iterBlock], Or.inr rfl,
            by norm_num, fun _ _ => le_refl 1, ?_⟩
          intro s hs hne
          cases hc : cancelR with
          | ok u => rw [hc] at hs; simp at hs; exact absurd hs.symm hne
          | error e => rw [hc] at hs; simp at hs
        · rw [pollLoop_cont_step polls cancelR p fuel timeout status tick hst hg]
          obtain ⟨n, ctail, hev, hct, htl, _, hcl⟩ :=
            ih (timeout - p) (pollStatus polls tick status) (tick + 1)
          refine ⟨n + 1, ctail, ?_, hct, ?_, fun _ _ => by omega, ?_⟩
          · simp [iterBlocks, hev]
          · simp [htl]; ring
          · intro s hs hne
            exact hcl s hs hne
      · rw [pollLoop_term polls cancelR p (fuel + 1) timeout status tick (by simpa using hst)]
        exact ⟨0, [], by simp [iterBlocks], Or.inl rfl, by simp,
          fun h => by simp [h] at hst, fun _ _ _ => rfl⟩

/-- When every poll answers `"RUNNING"` and `cancel` succeeds, the poll
loop (entered in any non-terminal state with sufficient fuel) runs some
positive number of full iterations, issues exactly one cancel request
as its final event, exits with status `"TIMEOUT"`, and ends the
countdown at the initial value minus one poll interval per iteration. -/
theorem pollLoop_all_running (polls : Nat → Except String String) (cancelR : Except PyErr Unit)
    (p : Int) (hp : 1 ≤ p)
    (hpolls : ∀ k, polls k = .ok "RUNNING") (hc : cancelR = .ok ()) :
    ∀ fuel timeout status tick, isNonTerminal status = true → timeout.toNat + 1 ≤ fuel →
    ∃ n, 1 ≤ n ∧ pollLoop polls cancelR p fuel timeout status tick =
      ⟨iterBlocks p n ++ [Event.cancelCall], .done "TIMEOUT", timeout - n * p⟩ := by
  intro fuel
  induction fuel with
  | zero => intro timeout status tick _ hb; omega
  | succ fuel ih =>
      intro timeout status tick hst hb
      have hrun : pollStatus polls tick status = "RUNNING" := by
        simp [pollStatus, hpolls tick]
      have hnt : isNonTerminal (pollStatus polls tick status) = true := by
        rw [hrun]; rfl
      by_cases hneg : timeout - p < 0
      · refine ⟨1, le_refl 1, ?_⟩
        rw [pollLoop_cancel_step polls cancelR p fuel timeout status tick hst hneg hnt, hc]
        simp [iterBlocks, iterBlock]
      · rw [pollLoop_cont_step polls cancelR p fuel timeout status tick hst
          (fun hx => hneg hx.1)]
        obtain ⟨n, hn, heq⟩ := ih (timeout - p) (pollStatus polls tick status) (tick + 1) hnt
          (by omega)
        refine ⟨n + 1, by omega, ?_⟩
        rw [heq]
        simp [iterBlocks, iterBlock]
        ring

/-- The fuel bound used by `execute_sync` is sufficient: with fuel at
least the (non-negative part of the) countdown plus one, the poll loop
never exits through the fuel-exhaustion artifact. -/
theorem pollLoop_no_fuelOut (polls : Nat → Except String String) (cancelR : Except PyErr Unit)
    (p : Int) (hp : 1 ≤ p) :
    ∀ fuel timeout status tick, timeout.toNat + 1 ≤ fuel →
    (pollLoop polls cancelR p fuel timeout status tick).exitS ≠ .fuelOut := by
  intro fuel
  induction fuel with
  | zero => intro timeout status tick hb; omega
  | succ fuel ih =>
      intro timeout status tick hb
      by_cases hst : isNonTerminal status
      · by_cases hg : timeout - p < 0 ∧ isNonTerminal (pollStatus polls tick status) = true
        · rw [pollLoop_cancel_step polls cancelR p fuel timeout status tick hst hg.1 hg.2]
          cases cancelR <;> simp
        · rw [pollLoop_cont_step polls cancelR p fuel timeout status tick hst hg]
          rcases Bool.eq_false_or_eq_true (isNonTerminal (pollStatus polls tick status)) with hs | hs
          · have hge : ¬(timeout - p < 0) := fun hx => hg ⟨hx, hs⟩
            exact ih (timeout - p) (pollStatus polls tick status) (tick + 1) (by omega)
          · rw [pollLoop_term polls cancelR p fuel (timeout - p) (pollStatus polls tick status)
              (tick + 1) hs]
            simp
      · rw [pollLoop_term polls cancelR p (fuel + 1) timeout status tick (by simpa using hst)]
        simp

/-- Claim C1: if the progress endpoint returns `RUNNING` on every poll,
`execute_sync` exits the poll loop in state `TIMEOUT` once the running
timeout countdown (decremented by the poll interval each iteration)
goes negative while the job is still non-terminal, issues exactly one
cancel request, and, when `raise_error` is set, raises the job-failed
error (`ValueError('vogon job failed to succeed')`, the error the spec
calls `JobFailedError`) with the final status being `TIMEOUT`. -/
theorem C1_timeout_path (srv : Server) (p T : Int) (jid : Value)
    (hp : 45 ≤ p) (hT : 2 ≤ T)
    (hsub : submit srv.submitHttp = Except.ok jid)
    (hpolls : ∀ k, srv.polls k = Except.ok "RUNNING")
    (hcancel : srv.cancelResult = Except.ok ()) :
    (execute_sync srv p T true).finalStatus = some "TIMEOUT" ∧
    (execute_sync srv p T true).events.count Event.cancelCall = 1 ∧
    (execute_sync srv p T true).result =
      ExecOutcome.raisedE (PyErr.valueError "vogon job failed to succeed") := by
  obtain ⟨n, hn, heq⟩ := pollLoop_all_running srv.polls srv.cancelResult p (by omega) hpolls
    hcancel (T.toNat + 2) T "SUBMITTED" 0 rfl (by omega)
  unfold execute_sync
  rw [if_neg (by omega), if_neg (by omega), hsub]
  simp only [heq]
  refine ⟨rfl, ?_, rfl⟩
  simp [List.count_append, List.count_cons, iterBlocks_count_cancel]

/-- Witness for C1 at a concrete server whose polls all answer
`RUNNING`, with the minimal legal configuration. -/
def serverAllRunning : Server :=
  ⟨HttpResult.resp 200 "OK" (some [("status", Value.str "SUBMITTED"), ("id", Value.str "job-1")]),
    fun _ => Except.ok "RUNNING",
    Except.ok (),
    Except.ok [("rows", Value.list [])],
    Except.ok Value.null⟩

/-- Witness instantiating C1 at `serverAllRunning` with the minimal
legal configuration `poll_interval_sec = 45`, `query_timeout_min = 2`. -/
theorem C1_timeout_path_witness :
    (execute_sync serverAllRunning 45 2 true).finalStatus = some "TIMEOUT" ∧
    (execute_sync serverAllRunning 45 2 true).events.count Event.cancelCall = 1 ∧
    (execute_sync serverAllRunning 45 2 true).result =
      ExecOutcome.raisedE (PyErr.valueError "vogon job failed to succeed") :=
  C1_timeout_path serverAllRunning 45 2 (Value.str "job-1") (by omega) (by omega) rfl
    (fun _ => rfl) rfl

/-- Claim C3: in every iteration of the poll loop of `execute_sync`,
the client sleeps one full poll interval and performs a status check
before evaluating whether the timeout budget is exhausted — the trace
consists of `n ≥ 1` complete `[sleep, poll, budget-check]` blocks (so
no budget check ever precedes the first sleep+poll cycle), followed
only by the terminal cancel/fetch/diagnostic calls — and the budget is
decremented by the poll interval exactly once per iteration, ending at
the initial budget minus `n` poll intervals. -/
theorem C3_sleep_poll_before_check (srv : Server) (p T : Int) (re : Bool) (jid : Value)
    (hp : 45 ≤ p) (hT : 2 ≤ T)
    (hsub : submit srv.submitHttp = Except.ok jid) :
    ∃ n tail,
      1 ≤ n ∧
      (execute_sync srv p T re).events = Event.submitCall :: (iterBlocks p n ++ tail) ∧
      (tail = [] ∨ tail = [Event.cancelCall] ∨ tail = [Event.resultsCall] ∨
        tail = [Event.errorMsgCall] ∨ tail = [Event.cancelCall, Event.errorMsgCall]) ∧
      (execute_sync srv p T re).finalTimeout = some (T - n * p) := by
  obtain ⟨n, ctail, hev, hct, htl, hpos, hcl⟩ :=
    pollLoop_shape srv.polls srv.cancelResult p (T.toNat + 2) T "SUBMITTED" 0
  have hn : 1 ≤ n := hpos rfl (by omega)
  unfold execute_sync
  rw [if_neg (by omega), if_neg (by omega)]
  simp only [hsub]
  cases hexit : (pollLoop srv.polls srv.cancelResult p (T.toNat + 2) T "SUBMITTED" 0).exitS with
  | fuelOut =>
      refine ⟨n, ctail, hn, by simp [hev], ?_, by simp [htl]⟩
      rcases hct with h | h
      · exact Or.inl h
      · exact Or.inr (Or.inl h)
  | raisedE e =>
      refine ⟨n, ctail, hn, by simp [hev], ?_, by simp [htl]⟩
      rcases hct with h | h
      · exact Or.inl h
      · exact Or.inr (Or.inl h)
  | done s =>
      dsimp only []
      by_cases hs : s = "SUCCEEDED"
      · have hc0 : ctail = [] := hcl s hexit (by rw [hs]; intro hx; exact absurd hx (by decide))
        rw [if_pos hs]
        cases hrb : srv.resultsBody with
        | ok b =>
            refine ⟨n, [Event.resultsCall], hn, ?_, Or.inr (Or.inr (Or.inl rfl)), by simp [htl]⟩
            simp [hev, hc0]
        | error e =>
            refine ⟨n, [Event.resultsCall], hn, ?_, Or.inr (Or.inr (Or.inl rfl)), by simp [htl]⟩
            simp [hev, hc0]
      · rw [if_neg hs]
        cases re
        · refine ⟨n, ctail ++ [Event.errorMsgCall], hn, by simp [hev], ?_, by simp [htl]⟩
          rcases hct with h | h
          · subst h; exact Or.inr (Or.inr (Or.inr (Or.inl (by simp))))
          · subst h; exact Or.inr (Or.inr (Or.inr (Or.inr rfl)))
        · refine ⟨n, ctail ++ [Event.errorMsgCall], hn, by simp [hev], ?_, by simp [htl]⟩
          rcases hct with h | h
          · subst h; exact Or.inr (Or.inr (Or.inr (Or.inl (by simp))))
          · subst h; exact Or.inr (Or.inr (Or.inr (Or.inr rfl)))

/-- Witness instantiating C3 at `serverAllRunning` with
`poll_interval_sec = 45`, `query_timeout_min = 2`. -/
theorem C3_sleep_poll_before_check_witness :
    ∃ n tail,
      1 ≤ n ∧
      (execute_sync serverAllRunning 45 2 true).events =
        Event.submitCall :: (iterBlocks 45 n ++ tail) ∧
      (tail = [] ∨ tail = [Event.cancelCall] ∨ tail = [Event.resultsCall] ∨
        tail = [Event.errorMsgCall] ∨ tail = [Event.cancelCall, Event.errorMsgCall]) ∧
      (execute_sync serverAllRunning 45 2 true).finalTimeout = some (2 - (n : Int) * 45) :=
  C3_sleep_poll_before_check serverAllRunning 45 2 true (Value.str "job-1")
    (by omega) (by omega) rfl

/-- Claim C5: for every query, if `query_timeout_min < 2` or
`poll_interval_sec < 45`, `execute_sync` fails immediately with the
configuration `ValueError` (the error the spec calls
`ConfigurationError`) and performs zero network calls — the event
trace is empty, so no submission, poll, fetch, or cancel request
occurs. -/
theorem C5_config_guard (srv : Server) (p T : Int) (re : Bool)
    (hbad : T < 2 ∨ p < 45) :
    (execute_sync srv p T re).events = [] ∧
    ∃ m, (execute_sync srv p T re).result = ExecOutcome.raisedE (PyErr.valueError m) ∧
      (m = "query_timeout_min for vogon query cannot be less than 2 minutes" ∨
       m = "poll_interval_sec for vogon query cannot be less than 45 seconds") := by
  unfold execute_sync
  by_cases hT : T < 2
  · rw [if_pos hT]
    exact ⟨rfl, "query_timeout_min for vogon query cannot be less than 2 minutes",
      rfl, Or.inl rfl⟩
  · have hp : p < 45 := hbad.resolve_left hT
    rw [if_neg hT, if_pos hp]
    exact ⟨rfl, "poll_interval_sec for vogon query cannot be less than 45 seconds",
      rfl, Or.inr rfl⟩

/-- Witness instantiating C5 at `serverAllRunning` with an invalid
`query_timeout_min = 1`. -/
theorem C5_config_guard_witness :
    (execute_sync serverAllRunning 60 1 true).events = [] ∧
    ∃ m, (execute_sync serverAllRunning 60 1 true).result =
      ExecOutcome.raisedE (PyErr.valueError m) ∧
      (m = "query_timeout_min for vogon query cannot be less than 2 minutes" ∨
       m = "poll_interval_sec for vogon query cannot be less than 45 seconds") :=
  C5_config_guard serverAllRunning 60 1 true (Or.inl (by omega))

/-- When a valid, successfully submitted run ends the loop in a
non-success status, `execute_sync` appends exactly one diagnostic
`error_message` fetch to the trace and produces the job-failed
`ValueError` or `None` according to `raise_error`. -/
theorem execute_sync_nonsuccess (srv : Server) (p T : Int) (re : Bool) (s : String)
    (hp : 45 ≤ p) (hT : 2 ≤ T)
    (hsub0 : ∃ jid, submit srv.submitHttp = Except.ok jid)
    (hfs : (execute_sync srv p T re).finalStatus = some s)
    (hns : s ≠ "SUCCEEDED") :
    (execute_sync srv p T re).events =
      Event.submitCall ::
        ((pollLoop srv.polls srv.cancelResult p (T.toNat + 2) T "SUBMITTED" 0).events
          ++ [Event.errorMsgCall]) ∧
    (execute_sync srv p T re).result =
      (if re then ExecOutcome.raisedE (PyErr.valueError "vogon job failed to succeed")
       else ExecOutcome.nullResult) := by
  obtain ⟨jid, hsub⟩ := hsub0
  unfold execute_sync at hfs ⊢
  rw [if_neg (by omega), if_neg (by omega)] at hfs ⊢
  simp only [hsub] at hfs ⊢
  cases hexit : (pollLoop srv.polls srv.cancelResult p (T.toNat + 2) T "SUBMITTED" 0).exitS with
  | fuelOut => rw [hexit] at hfs; simp at hfs
  | raisedE e => rw [hexit] at hfs; simp at hfs
  | done s' =>
      rw [hexit] at hfs
      dsimp only [] at hfs ⊢
      by_cases hs' : s' = "SUCCEEDED"
      · exfalso
        rw [if_pos hs'] at hfs
        cases hrb : srv.resultsBody with
        | ok b => rw [hrb] at hfs; simp at hfs; exact hns (by rw [← hfs, hs'])
        | error e => rw [hrb] at hfs; simp at hfs; exact hns (by rw [← hfs, hs'])
      · rw [if_neg hs'] at hfs ⊢
        cases re <;> simp

/-- Claim C7: when the poll loop ends in a non-success terminal state,
`execute_sync` attempts to fetch the service's error message as a
best-effort diagnostic whose outcome (including its own failure) never
changes the result of the orchestration — the run is identical for
every `error_message` outcome `em` — and with `raise_error` unset it
returns `None` instead of raising (and with it set raises the
job-failed `ValueError`). -/
theorem C7_diagnostic_best_effort (srv : Server) (p T : Int) (re : Bool) (jid : Value)
    (s : String) (em : Except PyErr Value)
    (hp : 45 ≤ p) (hT : 2 ≤ T)
    (hsub : submit srv.submitHttp = Except.ok jid)
    (hfs : (execute_sync srv p T re).finalStatus = some s)
    (hns : s ≠ "SUCCEEDED") :
    Event.errorMsgCall ∈ (execute_sync srv p T re).events ∧
    execute_sync { srv with errMsg := em } p T re = execute_sync srv p T re ∧
    (re = false → (execute_sync srv p T re).result = ExecOutcome.nullResult) ∧
    (re = true → (execute_sync srv p T re).result =
      ExecOutcome.raisedE (PyErr.valueError "vogon job failed to succeed")) := by
  obtain ⟨hev, hres⟩ := execute_sync_nonsuccess srv p T re s hp hT ⟨jid, hsub⟩ hfs hns
  refine ⟨?_, rfl, ?_, ?_⟩
  · rw [hev]; simp
  · intro h; rw [hres, h]; simp
  · intro h; rw [hres, h]; simp

/-- Server whose job always reports `FAILED` and whose diagnostic
`error_message` call itself raises. -/
def serverFailing : Server :=
  ⟨HttpResult.resp 200 "OK" (some [("status", Value.str "SUBMITTED"), ("id", Value.str "j2")]),
    fun _ => Except.ok "FAILED",
    Except.ok (),
    Except.ok [("rows", Value.list [])],
    Except.error (PyErr.valueError "diagnostic endpoint down")⟩

/-- Witness instantiating C7 at `serverFailing` with `raise_error`
unset. -/
theorem C7_diagnostic_best_effort_witness :
    Event.errorMsgCall ∈ (execute_sync serverFailing 45 2 false).events ∧
    execute_sync { serverFailing with errMsg := Except.ok Value.null } 45 2 false =
      execute_sync serverFailing 45 2 false ∧
    (false = false → (execute_sync serverFailing 45 2 false).result = ExecOutcome.nullResult) ∧
    (false = true → (execute_sync serverFailing 45 2 false).result =
      ExecOutcome.raisedE (PyErr.valueError "vogon job failed to succeed")) :=
  C7_diagnostic_best_effort serverFailing 45 2 false (Value.str "j2") "FAILED"
    (Except.ok Value.null) (by omega) (by omega) rfl rfl (by decide)

/-- Claim C2: a transient poll failure never aborts the job.  First,
one poll-loop iteration whose `progress` call raises (and whose budget
is not yet exhausted) swallows the exception and continues with the
previous status value on the next tick.  Second, whenever a run of
`execute_sync` ends the loop in `SUCCEEDED` — in particular runs
containing such failed polls — the call still fetches and returns the
rows body. -/
theorem C2_poll_failure_resilience (srv : Server) (p T : Int) (re : Bool) (jid : Value)
    (b : List (String × Value))
    (hp : 45 ≤ p) (hT : 2 ≤ T)
    (hsub : submit srv.submitHttp = Except.ok jid)
    (hrb : srv.resultsBody = Except.ok b)
    (hfs : (execute_sync srv p T re).finalStatus = some "SUCCEEDED") :
    (execute_sync srv p T re).result = ExecOutcome.body b ∧
    (∀ fuel timeout status tick e, isNonTerminal status = true →
      srv.polls tick = Except.error e → ¬(timeout - p < 0) →
      pollLoop srv.polls srv.cancelResult p (fuel + 1) timeout status tick =
        ⟨iterBlock p ++
            (pollLoop srv.polls srv.cancelResult p fuel (timeout - p) status (tick + 1)).events,
          (pollLoop srv.polls srv.cancelResult p fuel (timeout - p) status (tick + 1)).exitS,
          (pollLoop srv.polls srv.cancelResult p fuel (timeout - p) status (tick + 1)).timeoutLeft⟩) := by
  constructor
  · unfold execute_sync at hfs ⊢
    rw [if_neg (by omega), if_neg (by omega)] at hfs ⊢
    simp only [hsub] at hfs ⊢
    cases hexit : (pollLoop srv.polls srv.cancelResult p (T.toNat + 2) T "SUBMITTED" 0).exitS with
    | fuelOut => rw [hexit] at hfs; simp at hfs
    | raisedE e => rw [hexit] at hfs; simp at hfs
    | done s' =>
        rw [hexit] at hfs
        dsimp only [] at hfs ⊢
        by_cases hs' : s' = "SUCCEEDED"
        · rw [if_pos hs', hrb]
        · exfalso
          rw [if_neg hs'] at hfs
          cases re <;> simp at hfs <;> exact hs' hfs
  · intro fuel timeout status tick e hstt herr hto
    have hps : pollStatus srv.polls tick status = status := by
      simp [pollStatus, herr]
    rw [pollLoop_cont_step srv.polls srv.cancelResult p fuel timeout status tick hstt
      (fun hx => hto hx.1), hps]

/-- Server matching the spec's resilience fixture: the progress
endpoint throws on the second tick and succeeds on the others,
eventually reaching `SUCCEEDED` on the fifth tick. -/
def serverFlaky : Server :=
  ⟨HttpResult.resp 200 "OK" (some [("status", Value.str "SUBMITTED"), ("id", Value.str "j3")]),
    fun t =>
      if t = 1 then Except.error "connection reset by peer"
      else if t = 4 then Except.ok "SUCCEEDED"
      else Except.ok "RUNNING",
    Except.ok (),
    Except.ok [("rows", Value.list [Value.list [Value.str "x", Value.num 1]])],
    Except.ok Value.null⟩

/-- Witness instantiating C2 at `serverFlaky` with
`poll_interval_sec = 45`, `query_timeout_min = 300`. -/
theorem C2_poll_failure_resilience_witness :
    (execute_sync serverFlaky 45 300 true).result =
      ExecOutcome.body [("rows", Value.list [Value.list [Value.str "x", Value.num 1]])] ∧
    (∀ fuel timeout status tick e, isNonTerminal status = true →
      serverFlaky.polls tick = Except.error e → ¬(timeout - 45 < 0) →
      pollLoop serverFlaky.polls serverFlaky.cancelResult 45 (fuel + 1) timeout status tick =
        ⟨iterBlock 45 ++
            (pollLoop serverFlaky.polls serverFlaky.cancelResult 45 fuel (timeout - 45) status (tick + 1)).events,
          (pollLoop serverFlaky.polls serverFlaky.cancelResult 45 fuel (timeout - 45) status (tick + 1)).exitS,
          (pollLoop serverFlaky.polls serverFlaky.cancelResult 45 fuel (timeout - 45) status (tick + 1)).timeoutLeft⟩) :=
  C2_poll_failure_resilience serverFlaky 45 300 true (Value.str "j3")
    [("rows", Value.list [Value.list [Value.str "x", Value.num 1]])]
    (by omega) (by omega) rfl rfl rfl

/-- Claim C8: the escaping fixtures.  `escape("O'Brien")` doubles the
embedded single quote into two backticks inside single quotes;
`escape(true)` is the unquoted string `TRUE` (and `false` gives
`FALSE`); `escape(["a","b"])` escapes element-wise and joins with
`", "`; ints and floats pass through unescaped; and the `"*"` wildcard
passes through verbatim, bypassing quoting. -/
theorem C8_escape_rules :
    escape (Value.str "O'Brien") = Except.ok (Value.str "'O``Brien'") ∧
    escape (Value.bool true) = Except.ok (Value.str "TRUE") ∧
    escape (Value.bool false) = Except.ok (Value.str "FALSE") ∧
    escape (Value.list [Value.str "a", Value.str "b"]) = Except.ok (Value.str "'a', 'b'") ∧
    (∀ n : Int, escape (Value.num n) = Except.ok (Value.num n)) ∧
    (∀ q : Rat, escape (Value.real q) = Except.ok (Value.real q)) ∧
    escape (Value.str "*") = Except.ok (Value.str "*") :=
  ⟨rfl, rfl, rfl, rfl, fun _ => rfl, fun _ => rfl, rfl⟩

/-- Claim C10: for every parameter value outside the handled classes —
in this data model exactly `None` and dicts — `escape` falls off the
end of the function and returns `None` rather than an escaped literal
or an error, so placeholder substitution interpolates the literal text
`None` into the submitted query instead of failing. -/
theorem C10_unhandled_value_escapes_to_none (d : List (String × Value)) :
    escape Value.null = Except.ok Value.null ∧
    escape (Value.dict d) = Except.ok Value.null ∧
    apply_parameters "SELECT %(k)s" (some [("k", Value.null)]) = Except.ok "SELECT None" ∧
    apply_parameters "SELECT %(k)s" (some [("k", Value.dict d)]) = Except.ok "SELECT None" :=
  ⟨rfl, rfl, rfl, rfl⟩

/-- Server matching the spec's round-trip fixture: progress sequence
`SUBMITTED, QUEUED, RUNNING, SUCCEEDED` and result rows
`[["x",1],["y",2]]`. -/
def serverRoundTrip : Server :=
  ⟨HttpResult.resp 200 "OK" (some [("status", Value.str "SUBMITTED"), ("id", Value.str "j4")]),
    fun t =>
      Except.ok
        (if t = 0 then "SUBMITTED"
         else if t = 1 then "QUEUED"
         else if t = 2 then "RUNNING"
         else "SUCCEEDED"),
    Except.ok (),
    Except.ok [("rows", Value.list
      [Value.list [Value.str "x", Value.num 1], Value.list [Value.str "y", Value.num 2]])],
    Except.ok Value.null⟩

/-- The two tuples the round-trip query materializes on the cursor. -/
def c4Rows : List (List Value) :=
  [[Value.str "x", Value.num 1], [Value.str "y", Value.num 2]]

/-- Counterexample to claim C4: executing the round-trip fixture query
does yield exactly the two rows, but the cursor's description is
`None` — `Cursor._stream_query` resets `self.description = None` and
never assigns it again (`get_description_from_row` is never called) —
so the description does not infer column 0 as STRING/nullable and
column 1 as NUMBER/non-nullable as the claim states. -/
theorem C4_counterexample :
    CursorState.execute CursorState.fresh serverRoundTrip
        "SELECT customer_id, net_bid FROM cm.rts_customer_stats" none =
      Except.ok { closed := false, description := none, results := some c4Rows } := rfl

/-- Claim C4 as amended: the round-trip fixture yields a result set of
exactly two rows, but the cursor's description is left `None` (never
derived from any row); the unused helper `get_description_from_row`,
applied to the first row as a name-to-value mapping, would infer
column 0 as STRING and nullable and column 1 as NUMBER and
non-nullable. -/
theorem C4_round_trip_amended :
    CursorState.execute CursorState.fresh serverRoundTrip
        "SELECT customer_id, net_bid FROM cm.rts_customer_stats" none =
      Except.ok { closed := false, description := none, results := some c4Rows } ∧
    c4Rows.length = 2 ∧
    get_description_from_row [("customer_id", Value.str "x"), ("net_bid", Value.num 1)] =
      Except.ok
        [⟨"customer_id", PyType.STRING, none, none, none, none, true⟩,
         ⟨"net_bid", PyType.NUMBER, none, none, none, none, false⟩] :=
  ⟨rfl, rfl, rfl⟩

/-- An acknowledged (2xx, JSON) submission response whose status is
`FAILED`. -/
def submitRespFailed : HttpResult :=
  HttpResult.resp 200 "OK" (some [("status", Value.str "FAILED"), ("id", Value.str "a")])

/-- An acknowledged submission response whose status is `REJECTED`,
with a different body than `submitRespFailed`. -/
def submitRespRejected : HttpResult :=
  HttpResult.resp 200 "OK" (some [("status", Value.str "REJECTED"), ("id", Value.str "b")])

/-- Counterexample to claim C6: two different acknowledged non-
`SUBMITTED` responses produce the very same submission error — a
`ValueError` with the fixed message `'query is not submitted
successfully, check with Vogon Admin'` — so the error cannot be
carrying the raw response as the claim states. -/
theorem C6_counterexample :
    submit submitRespFailed =
      Except.error (PyErr.valueError "query is not submitted successfully, check with Vogon Admin") ∧
    submit submitRespRejected =
      Except.error (PyErr.valueError "query is not submitted successfully, check with Vogon Admin") ∧
    submitRespFailed ≠ submitRespRejected := by
  refine ⟨rfl, rfl, ?_⟩
  intro h
  simp [submitRespFailed, submitRespRejected] at h

/-- Claim C6 as amended: `submit` returns the response's `id` field
exactly when an acknowledged response's `status` field equals
`SUBMITTED`; an acknowledged response with any other string status
fails with the submission `ValueError` carrying a fixed message (not
the raw response); and a transport-level `ConnectionError` propagates
immediately without retry. -/
theorem C6_submit_amended (code : Nat) (reason : String) (fields : List (String × Value))
    (m : String) :
    (code < 400 → fields.lookup "status" = some (Value.str "SUBMITTED") →
      submit (HttpResult.resp code reason (some fields)) =
        get_response_value (some fields) "id") ∧
    (code < 400 → ∀ s, fields.lookup "status" = some (Value.str s) → s ≠ "SUBMITTED" →
      submit (HttpResult.resp code reason (some fields)) =
        Except.error (PyErr.valueError "query is not submitted successfully, check with Vogon Admin")) ∧
    submit (HttpResult.conn_error m) = Except.error (PyErr.connectionError m) := by
  refine ⟨?_, ?_, rfl⟩
  · intro hcode hs
    have hlt : ¬400 ≤ code := by omega
    simp [submit, run_and_check, get_response_value, hs, hlt]
  · intro hcode s hs hne
    have hlt : ¬400 ≤ code := by omega
    simp [submit, run_and_check, get_response_value, hs, hlt, hne]

/-- Witness instantiating the amended C6 on a `SUBMITTED` response, a
`QUEUED` response, and a refused connection. -/
theorem C6_submit_amended_witness :
    submit (HttpResult.resp 200 "OK"
        (some [("status", Value.str "SUBMITTED"), ("id", Value.str "j9")])) =
      Except.ok (Value.str "j9") ∧
    submit (HttpResult.resp 200 "OK"
        (some [("status", Value.str "QUEUED"), ("id", Value.str "j9")])) =
      Except.error (PyErr.valueError "query is not submitted successfully, check with Vogon Admin") ∧
    submit (HttpResult.conn_error "connection refused") =
      Except.error (PyErr.connectionError "connection refused") :=
  ⟨(C6_submit_amended 200 "OK" [("status", Value.str "SUBMITTED"), ("id", Value.str "j9")]
      "connection refused").1 (by omega) rfl,
    (C6_submit_amended 200 "OK" [("status", Value.str "QUEUED"), ("id", Value.str "j9")]
      "connection refused").2.1 (by omega) "QUEUED" rfl (by decide),
    (C6_submit_amended 200 "OK" [] "connection refused").2.2⟩

/-- A cursor that has executed a query (so `check_result` passes) and
has then been closed. -/
def closedExecutedCursor : CursorState := ⟨true, none, some []⟩

/-- Counterexample to claim C9: the error raised by an operation on a
closed cursor and the error raised by `get_type` on an unclassifiable
value (the spec's `UnknownTypeError`) are both
`vogon.exceptions.Error` — the same exception class, distinguished
only by message — so the closed-resource error is not a dedicated
error distinct from all the listed protocol errors. -/
theorem C9_counterexample :
    CursorState.fetchall closedExecutedCursor =
      Except.error (PyErr.vogonError "Cursor already closed") ∧
    get_type (Value.list []) =
      Except.error (PyErr.vogonError "Value of unknown type: []") ∧
    (PyErr.vogonError "Cursor already closed").klass =
      (PyErr.vogonError "Value of unknown type: []").klass :=
  ⟨rfl, rfl, rfl⟩

/-- Claim C9 as amended: every connection or cursor operation invoked
after close fails with `vogon.exceptions.Error('<Class> already
closed')` (for cursor fetch operations, once the preceding
`check_result` guard passes).  This error's exception class is
distinct from the `ValueError`-based protocol errors (configuration,
submission, job-failed) and from `ConnectionError`, but it is the same
exception class as the unknown-type error of `get_type`, from which it
differs only in message. -/
theorem C9_closed_ops_amended (c : CursorState) (conn : ConnectionState)
    (rs : List (List Value)) (srv : Server) (op : String)
    (ps : Option (List (String × Value))) (sz : Nat)
    (hc : c.closed = true) (hr : c.results = some rs) (hcn : conn.closed = true) :
    c.execute srv op ps = Except.error (closedError "Cursor") ∧
    c.close = Except.error (closedError "Cursor") ∧
    c.fetchone = Except.error (closedError "Cursor") ∧
    c.fetchall = Except.error (closedError "Cursor") ∧
    c.fetchmany sz = Except.error (closedError "Cursor") ∧
    c.executemany = Except.error (closedError "Cursor") ∧
    conn.close = Except.error (closedError "Connection") ∧
    conn.commit = Except.error (closedError "Connection") ∧
    conn.cursor = Except.error (closedError "Connection") ∧
    (∀ m m', (closedError m).klass ≠ (PyErr.valueError m').klass) ∧
    (∀ m m', (closedError m).klass ≠ (PyErr.connectionError m').klass) ∧
    (∀ m v, get_type v = Except.error (PyErr.vogonError m) →
      (closedError "Cursor").klass = (PyErr.vogonError m).klass) := by
  refine ⟨?_, ?_, ?_, ?_, ?_, ?_, ?_, ?_, ?_, ?_, ?_, fun _ _ _ => rfl⟩
  · simp [CursorState.execute, hc]
  · simp [CursorState.close, hc]
  · simp [CursorState.fetchone, hr, hc]
  · simp [CursorState.fetchall, hr, hc]
  · simp [CursorState.fetchmany, hr, hc]
  · simp [CursorState.executemany, hc]
  · simp [ConnectionState.close, hcn]
  · simp [ConnectionState.commit, hcn]
  · simp [ConnectionState.cursor, hcn]
  · intro m m'; simp [closedError, PyErr.klass]
  · intro m m'; simp [closedError, PyErr.klass]

/-- Witness instantiating the amended C9 at a closed executed cursor
and a closed connection. -/
theorem C9_closed_ops_amended_witness :
    closedExecutedCursor.execute serverRoundTrip "SELECT 1" none =
      Except.error (closedError "Cursor") ∧
    closedExecutedCursor.close = Except.error (closedError "Cursor") ∧
    closedExecutedCursor.fetchone = Except.error (closedError "Cursor") ∧
    closedExecutedCursor.fetchall = Except.error (closedError "Cursor") ∧
    closedExecutedCursor.fetchmany 5 = Except.error (closedError "Cursor") ∧
    closedExecutedCursor.executemany = Except.error (closedError "Cursor") ∧
    ConnectionState.close ⟨true⟩ = Except.error (closedError "Connection") ∧
    ConnectionState.commit ⟨true⟩ = Except.error (closedError "Connection") ∧
    ConnectionState.cursor ⟨true⟩ = Except.error (closedError "Connection") ∧
    (∀ m m', (closedError m).klass ≠ (PyErr.valueError m').klass) ∧
    (∀ m m', (closedError m).klass ≠ (PyErr.connectionError m').klass) ∧
    (∀ m v, get_type v = Except.error (PyErr.vogonError m) →
      (closedError "Cursor").klass = (PyErr.vogonError m).klass) :=
  C9_closed_ops_amended closedExecutedCursor ⟨true⟩ [] serverRoundTrip "SELECT 1" none 5
    rfl rfl rfl
